import Mathlib

/-!
Shallow embedding of the quiz application core (quiz.py): the quiz-generation
algorithm `generate_quiz` and the session state machine driven by the five
button handlers (Shuffle Questions, Show Answer, Hide Answer, Previous, Next).

A pandas DataFrame of questions is modelled as a list of rows paired with
their pandas index. Randomness (pandas `DataFrame.sample`) is modelled by
passing the drawn row positions explicitly: `sample(n=k)` receives a list of
`k` distinct in-range positions, `sample(frac=1)` receives a permutation of
all row positions; validity of those draws appears as hypotheses.
-/

namespace Quiz

/-- Question record: the fields of one row of the question bank CSV. -/
structure Question where
  question : String
  option_a : String
  option_b : String
  option_c : String
  option_d : String
  correct_answer : String
  difficulty : String
deriving DecidableEq

/-- A DataFrame of questions: rows paired with their pandas index. -/
abbrev Frame := List (Nat × Question)

/-- One row of the generated quiz DataFrame: pandas index, question record and
the `question_num` column added by `generate_quiz`. -/
structure QuizRow where
  idx : Nat
  q : Question
  question_num : Nat
deriving DecidableEq

/-- Filtering a frame by difficulty: `df[df['difficulty'] == d]`. -/
def dfFilter (df : Frame) (d : String) : Frame :=
  df.filter (fun r => r.2.difficulty == d)

/-- Selecting the rows of `l` at the given positions (positions outside the
list contribute nothing). -/
def selectAt (l : List α) (pos : List Nat) : List α :=
  pos.filterMap (fun i => l.get? i)

/-- Sampling without replacement, `DataFrame.sample(n=n)`: the random draw is
the list `pick` of row positions; the call raises `ValueError` (here: returns
`none`) exactly when `n` exceeds the number of rows. -/
def dfSampleN (l : List α) (n : Nat) (pick : List Nat) : Option (List α) :=
  if n ≤ l.length then some (selectAt l pick) else none

/-- Reordering all rows, `DataFrame.sample(frac=1)`: the random draw is the
permutation `perm` of row positions. -/
def dfShuffle (l : List α) (perm : List Nat) : List α :=
  selectAt l perm

/-- Validity of the random draw for `sample(n=n)` on a pool of `len` rows:
`n` distinct in-range positions. -/
def ValidPick (len n : Nat) (pick : List Nat) : Prop :=
  pick.length = n ∧ pick.Nodup ∧ ∀ i ∈ pick, i < len

/-- Validity of the random draw for `sample(frac=1)` on `len` rows: a
permutation of all `len` row positions. -/
def ValidPerm (len : Nat) (perm : List Nat) : Prop :=
  ValidPick len len perm

instance (len n : Nat) (pick : List Nat) : Decidable (ValidPick len n pick) := by
  unfold ValidPick
  exact inferInstance

instance (len : Nat) (perm : List Nat) : Decidable (ValidPerm len perm) := by
  unfold ValidPerm
  exact inferInstance

/-- Adding the `question_num` column with values `k, k+1, ...` down the rows
(`quiz['question_num'] = range(1, len(quiz) + 1)` assigns positionally,
starting from `k = 1`). -/
def assignNumsFrom (k : Nat) : Frame → List QuizRow
  | [] => []
  | r :: t => ⟨r.1, r.2, k⟩ :: assignNumsFrom (k + 1) t

/-- The `question_num` assignment of `generate_quiz`, starting at 1. -/
def assignNums (l : Frame) : List QuizRow :=
  assignNumsFrom 1 l

/-- Quiz generation (`generate_quiz` in quiz.py). The `num_easy`, `num_medium`
and `num_hard` parameters are accepted but, as in the source, every `.sample`
call hardcodes `n=4`; the hardest tier filters `difficulty == 'medium+'`.
`pickE`, `pickM`, `pickH` are the random draws of the three tier samples and
`shuf` the random permutation of the combined frame. -/
def generate_quiz (df : Frame) (num_easy num_medium num_hard : Nat)
    (pickE pickM pickH shuf : List Nat) : Option (List QuizRow) := do
  let easy ← dfSampleN (dfFilter df "easy") 4 pickE
  let medium ← dfSampleN (dfFilter df "medium") 4 pickM
  let hard ← dfSampleN (dfFilter df "medium+") 4 pickH
  let quiz := easy ++ medium ++ hard
  let quiz := dfShuffle quiz shuf
  return assignNums quiz

/-- The session state persisted in `st.session_state`: the fields `quiz`,
`show_answer` and `current_question`. -/
structure SessionState where
  quiz : List QuizRow
  show_answer : Bool
  current_question : Nat
deriving DecidableEq

/-- Session initialization: on first run the quiz is generated with counts
(4, 4, 4), then `show_answer := false` and `current_question := 0`. When
generation raises, the exception propagates before any assignment to
`st.session_state`, so no session state is created (`none`). -/
def initSession (df : Frame) (pickE pickM pickH shuf : List Nat) :
    Option SessionState :=
  (generate_quiz df 4 4 4 pickE pickM pickH shuf).map
    (fun q => { quiz := q, show_answer := false, current_question := 0 })

/-- Effect of `reset_index(drop=True)`: replace the pandas index of each row
by its position `k, k+1, ...` (from `k = 0`). -/
def resetIndexFrom (k : Nat) : List QuizRow → List QuizRow
  | [] => []
  | r :: t => { r with idx := k } :: resetIndexFrom (k + 1) t

/-- Reassigning the `question_num` column with values `k, k+1, ...` down the
rows (from `k = 1` in the handler). -/
def renumberFrom (k : Nat) : List QuizRow → List QuizRow
  | [] => []
  | r :: t => { r with question_num := k } :: renumberFrom (k + 1) t

/-- The Shuffle Questions button handler: reorder the selected quiz
(`quiz.sample(frac=1).reset_index(drop=True)`), reassign `question_num` from
1, reset `current_question` to 0 and hide the answer. -/
def shuffleQuestions (s : SessionState) (perm : List Nat) : SessionState :=
  let quiz := resetIndexFrom 0 (dfShuffle s.quiz perm)
  let quiz := renumberFrom 1 quiz
  { quiz := quiz, current_question := 0, show_answer := false }

/-- The Show Answer button handler. -/
def showAnswerBtn (s : SessionState) : SessionState :=
  { s with show_answer := true }

/-- The Hide Answer button handler. -/
def hideAnswerBtn (s : SessionState) : SessionState :=
  { s with show_answer := false }

/-- The Previous button handler; the button is disabled, so the press has no
effect, when `current_question == 0`. -/
def prevQuestion (s : SessionState) : SessionState :=
  if s.current_question = 0 then s
  else { s with current_question := s.current_question - 1, show_answer := false }

/-- The Next button handler; the button is disabled, so the press has no
effect, when `current_question == len(quiz) - 1`. -/
def nextQuestion (s : SessionState) : SessionState :=
  if s.current_question = s.quiz.length - 1 then s
  else { s with current_question := s.current_question + 1, show_answer := false }

/-- Session states reachable from a successful session initialization by
button presses, every random draw being valid. -/
inductive Reachable (df : Frame) : SessionState → Prop
  | init (pickE pickM pickH shuf : List Nat) (s : SessionState)
      (hE : ValidPick (dfFilter df "easy").length 4 pickE)
      (hM : ValidPick (dfFilter df "medium").length 4 pickM)
      (hH : ValidPick (dfFilter df "medium+").length 4 pickH)
      (hS : ValidPerm 12 shuf)
      (h : initSession df pickE pickM pickH shuf = some s) : Reachable df s
  | next {s} : Reachable df s → Reachable df (nextQuestion s)
  | prev {s} : Reachable df s → Reachable df (prevQuestion s)
  | reveal {s} : Reachable df s → Reachable df (showAnswerBtn s)
  | conceal {s} : Reachable df s → Reachable df (hideAnswerBtn s)
  | shuffle {s} (perm : List Nat) : Reachable df s →
      ValidPerm s.quiz.length perm → Reachable df (shuffleQuestions s perm)

/-! Basic lemmas about row selection. -/

lemma selectAt_cons (l : List α) (i : Nat) (t : List Nat) (hi : i < l.length) :
    selectAt l (i :: t) = l.get ⟨i, hi⟩ :: selectAt l t := by
  simp [selectAt, List.filterMap_cons, List.getElem?_eq_getElem hi]

lemma selectAt_range (l : List α) : selectAt l (List.range l.length) = l := by
  induction l with
  | nil => rfl
  | cons a t ih =>
      have h0 : (0 : Nat) < (a :: t).length := Nat.succ_pos _
      rw [List.length_cons, List.range_succ_eq_map, selectAt_cons (a :: t) 0 _ h0]
      have h1 : selectAt (a :: t) (List.map Nat.succ (List.range t.length)) =
          selectAt t (List.range t.length) := by
        have h2 : ((fun i => (a :: t).get? i) ∘ Nat.succ) = (fun i => t.get? i) := by
          funext i
          simp
        simp only [selectAt, List.filterMap_map, h2]
      rw [h1, ih]
      rfl

lemma selectAt_length {l : List α} {pos : List Nat} (h : ∀ i ∈ pos, i < l.length) :
    (selectAt l pos).length = pos.length := by
  induction pos with
  | nil => rfl
  | cons i t ih =>
      have hi : i < l.length := h i (List.mem_cons_self i t)
      rw [selectAt_cons l i t hi, List.length_cons, List.length_cons,
        ih (fun j hj => h j (List.mem_cons_of_mem i hj))]

lemma mem_selectAt {l : List α} {pos : List Nat} {a : α} (h : a ∈ selectAt l pos) :
    a ∈ l := by
  rcases List.mem_filterMap.mp h with ⟨i, _, hget⟩
  exact List.get?_mem hget

/-- A valid `sample(frac=1)` draw is a permutation of `range n`. -/
lemma validPerm_perm_range {n : Nat} {perm : List Nat} (h : ValidPerm n perm) :
    perm.Perm (List.range n) := by
  obtain ⟨hlen, hnodup, hmem⟩ := h
  apply List.perm_of_nodup_nodup_toFinset_eq hnodup (List.nodup_range n)
  apply Finset.eq_of_subset_of_card_le
  · intro i hi
    exact List.mem_toFinset.mpr (List.mem_range.mpr (hmem i (List.mem_toFinset.mp hi)))
  · rw [List.toFinset_card_of_nodup hnodup,
      List.toFinset_card_of_nodup (List.nodup_range n), List.length_range, hlen]

/-- Reordering by a valid `sample(frac=1)` draw permutes the rows. -/
lemma dfShuffle_perm {l : List α} {perm : List Nat} (h : ValidPerm l.length perm) :
    (dfShuffle l perm).Perm l := by
  have h1 : (selectAt l perm).Perm (selectAt l (List.range l.length)) :=
    List.Perm.filterMap _ (validPerm_perm_range h)
  rw [selectAt_range] at h1
  exact h1

lemma dfShuffle_length {l : List α} {perm : List Nat} (h : ValidPerm l.length perm) :
    (dfShuffle l perm).length = l.length :=
  (dfShuffle_perm h).length_eq

/-! Basic lemmas about sampling. -/

lemma dfSampleN_eq_some {l : List α} {n : Nat} (pick : List Nat) (h : n ≤ l.length) :
    dfSampleN l n pick = some (selectAt l pick) := by
  simp [dfSampleN, h]

lemma dfSampleN_eq_none {l : List α} {n : Nat} (pick : List Nat) (h : l.length < n) :
    dfSampleN l n pick = none := by
  simp [dfSampleN]
  omega

lemma validPick_selectAt_length {l : List α} {n : Nat} {pick : List Nat}
    (h : ValidPick l.length n pick) : (selectAt l pick).length = n := by
  obtain ⟨hlen, _, hmem⟩ := h
  rw [selectAt_length hmem, hlen]

/-! Basic lemmas about the numbering passes. -/

lemma assignNumsFrom_length (k : Nat) (l : Frame) :
    (assignNumsFrom k l).length = l.length := by
  induction l generalizing k with
  | nil => rfl
  | cons r t ih => simp [assignNumsFrom, ih]

lemma assignNumsFrom_map_pair (k : Nat) (l : Frame) :
    (assignNumsFrom k l).map (fun r => (r.idx, r.q)) = l := by
  induction l generalizing k with
  | nil => rfl
  | cons r t ih => simp [assignNumsFrom, ih]

lemma assignNumsFrom_map_num (k : Nat) (l : Frame) :
    (assignNumsFrom k l).map (fun r => r.question_num) = List.range' k l.length := by
  induction l generalizing k with
  | nil => rfl
  | cons r t ih => simp [assignNumsFrom, ih, List.range'_succ]

lemma resetIndexFrom_length (k : Nat) (l : List QuizRow) :
    (resetIndexFrom k l).length = l.length := by
  induction l generalizing k with
  | nil => rfl
  | cons r t ih => simp [resetIndexFrom, ih]

lemma resetIndexFrom_map_q (k : Nat) (l : List QuizRow) :
    (resetIndexFrom k l).map (fun r => r.q) = l.map (fun r => r.q) := by
  induction l generalizing k with
  | nil => rfl
  | cons r t ih => simp [resetIndexFrom, ih]

lemma resetIndexFrom_map_idx (k : Nat) (l : List QuizRow) :
    (resetIndexFrom k l).map (fun r => r.idx) = List.range' k l.length := by
  induction l generalizing k with
  | nil => rfl
  | cons r t ih => simp [resetIndexFrom, ih, List.range'_succ]

lemma renumberFrom_length (k : Nat) (l : List QuizRow) :
    (renumberFrom k l).length = l.length := by
  induction l generalizing k with
  | nil => rfl
  | cons r t ih => simp [renumberFrom, ih]

lemma renumberFrom_map_q (k : Nat) (l : List QuizRow) :
    (renumberFrom k l).map (fun r => r.q) = l.map (fun r => r.q) := by
  induction l generalizing k with
  | nil => rfl
  | cons r t ih => simp [renumberFrom, ih]

lemma renumberFrom_map_idx (k : Nat) (l : List QuizRow) :
    (renumberFrom k l).map (fun r => r.idx) = l.map (fun r => r.idx) := by
  induction l generalizing k with
  | nil => rfl
  | cons r t ih => simp [renumberFrom, ih]

lemma renumberFrom_map_num (k : Nat) (l : List QuizRow) :
    (renumberFrom k l).map (fun r => r.question_num) = List.range' k l.length := by
  induction l generalizing k with
  | nil => rfl
  | cons r t ih => simp [renumberFrom, ih, List.range'_succ]

/-! Characterization of `generate_quiz`. -/

lemma ValidPick.le_len {len n : Nat} {pick : List Nat} (h : ValidPick len n pick) :
    n ≤ len := by
  obtain ⟨hlen, hnodup, hmem⟩ := h
  calc n = pick.toFinset.card := by rw [List.toFinset_card_of_nodup hnodup, hlen]
  _ ≤ (Finset.range len).card :=
      Finset.card_le_card
        (fun i hi => Finset.mem_range.mpr (hmem i (List.mem_toFinset.mp hi)))
  _ = len := Finset.card_range len

lemma generate_quiz_eq {df : Frame} (a b c : Nat) (pickE pickM pickH shuf : List Nat)
    (hE : 4 ≤ (dfFilter df "easy").length) (hM : 4 ≤ (dfFilter df "medium").length)
    (hH : 4 ≤ (dfFilter df "medium+").length) :
    generate_quiz df a b c pickE pickM pickH shuf =
      some (assignNums (dfShuffle
        (selectAt (dfFilter df "easy") pickE ++ selectAt (dfFilter df "medium") pickM ++
          selectAt (dfFilter df "medium+") pickH) shuf)) := by
  simp [generate_quiz, dfSampleN_eq_some _ hE, dfSampleN_eq_some _ hM,
    dfSampleN_eq_some _ hH]

lemma generate_quiz_eq_none_iff (df : Frame) (a b c : Nat)
    (pickE pickM pickH shuf : List Nat) :
    generate_quiz df a b c pickE pickM pickH shuf = none ↔
      (dfFilter df "easy").length < 4 ∨ (dfFilter df "medium").length < 4 ∨
        (dfFilter df "medium+").length < 4 := by
  unfold generate_quiz dfSampleN
  split_ifs <;> simp <;> omega

/-- The length of the combined frame of the three valid tier samples. -/
lemma combined_length {df : Frame} {pickE pickM pickH : List Nat}
    (hE : ValidPick (dfFilter df "easy").length 4 pickE)
    (hM : ValidPick (dfFilter df "medium").length 4 pickM)
    (hH : ValidPick (dfFilter df "medium+").length 4 pickH) :
    (selectAt (dfFilter df "easy") pickE ++ selectAt (dfFilter df "medium") pickM ++
      selectAt (dfFilter df "medium+") pickH).length = 12 := by
  rw [List.length_append, List.length_append, validPick_selectAt_length hE,
    validPick_selectAt_length hM, validPick_selectAt_length hH]

/-- With valid draws, a successful initialization yields position 0, hidden
answer and a 12-question quiz. -/
lemma initSession_some_spec {df : Frame} {pickE pickM pickH shuf : List Nat}
    {s : SessionState}
    (hE : ValidPick (dfFilter df "easy").length 4 pickE)
    (hM : ValidPick (dfFilter df "medium").length 4 pickM)
    (hH : ValidPick (dfFilter df "medium+").length 4 pickH)
    (hS : ValidPerm 12 shuf)
    (h : initSession df pickE pickM pickH shuf = some s) :
    s.current_question = 0 ∧ s.show_answer = false ∧ s.quiz.length = 12 := by
  rw [initSession, generate_quiz_eq 4 4 4 pickE pickM pickH shuf hE.le_len hM.le_len
    hH.le_len, Option.map_some'] at h
  have hq := (Option.some.injEq _ _).mp h
  have hcomb := combined_length hE hM hH
  rw [← hcomb] at hS
  subst hq
  refine ⟨rfl, rfl, ?_⟩
  show (assignNums _).length = 12
  rw [assignNums, assignNumsFrom_length, dfShuffle_length hS, hcomb]

lemma shuffleQuestions_quiz_length {s : SessionState} {perm : List Nat}
    (h : ValidPerm s.quiz.length perm) :
    (shuffleQuestions s perm).quiz.length = s.quiz.length := by
  simp [shuffleQuestions, renumberFrom_length, resetIndexFrom_length, dfShuffle_length h]

/-- The navigation invariant: in every reachable state the position is a valid
index into the selected quiz. -/
lemma reachable_position_lt {df : Frame} {s : SessionState} (h : Reachable df s) :
    s.current_question < s.quiz.length := by
  induction h with
  | init pickE pickM pickH shuf s hE hM hH hS hin =>
      obtain ⟨h0, _, h12⟩ := initSession_some_spec hE hM hH hS hin
      omega
  | next _ ih =>
      unfold nextQuestion
      split_ifs with hc
      · exact ih
      · simpa using by omega
  | prev _ ih =>
      unfold prevQuestion
      split_ifs with hc
      · exact ih
      · simpa using by omega
  | reveal _ ih => exact ih
  | conceal _ ih => exact ih
  | shuffle perm _ hv ih =>
      have hl := shuffleQuestions_quiz_length hv
      show (shuffleQuestions _ perm).current_question < _
      rw [hl]
      simp only [shuffleQuestions]
      omega

/-! Counting questions of a tier in a sampled group. -/

lemma countP_selectAt_filter_self (df : Frame) (d : String) (pick : List Nat) :
    (selectAt (dfFilter df d) pick).countP (fun r => r.2.difficulty == d) =
      (selectAt (dfFilter df d) pick).length := by
  apply List.countP_eq_length.mpr
  intro r hr
  exact (List.mem_filter.mp (mem_selectAt hr)).2

lemma countP_selectAt_filter_ne (df : Frame) (d d' : String) (hne : d ≠ d')
    (pick : List Nat) :
    (selectAt (dfFilter df d) pick).countP (fun r => r.2.difficulty == d') = 0 := by
  apply List.countP_eq_zero.mpr
  intro r hr
  have h1 : (r.2.difficulty == d) = true := (List.mem_filter.mp (mem_selectAt hr)).2
  have h2 : r.2.difficulty = d := by simpa using h1
  simp [h2, hne]

/-! Concrete fixtures: small question banks and session states used to
instantiate the general theorems. -/

/-- A question record with the given text and difficulty. -/
def mkQ (s d : String) : Question :=
  { question := s, option_a := "a", option_b := "b", option_c := "c",
    option_d := "d", correct_answer := "A", difficulty := d }

/-- A 12-question bank: four questions in each of the three tiers. -/
def bank12 : Frame :=
  [(0, mkQ "e1" "easy"), (1, mkQ "e2" "easy"), (2, mkQ "e3" "easy"),
    (3, mkQ "e4" "easy"), (4, mkQ "m1" "medium"), (5, mkQ "m2" "medium"),
    (6, mkQ "m3" "medium"), (7, mkQ "m4" "medium"), (8, mkQ "h1" "medium+"),
    (9, mkQ "h2" "medium+"), (10, mkQ "h3" "medium+"), (11, mkQ "h4" "medium+")]

/-- A bank with four easy, four medium and only three medium+ questions. -/
def bank11 : Frame :=
  [(0, mkQ "e1" "easy"), (1, mkQ "e2" "easy"), (2, mkQ "e3" "easy"),
    (3, mkQ "e4" "easy"), (4, mkQ "m1" "medium"), (5, mkQ "m2" "medium"),
    (6, mkQ "m3" "medium"), (7, mkQ "m4" "medium"), (8, mkQ "h1" "medium+"),
    (9, mkQ "h2" "medium+"), (10, mkQ "h3" "medium+")]

/-- A bank with four easy, four medium and only two medium+ questions. -/
def bank10 : Frame :=
  [(0, mkQ "e1" "easy"), (1, mkQ "e2" "easy"), (2, mkQ "e3" "easy"),
    (3, mkQ "e4" "easy"), (4, mkQ "m1" "medium"), (5, mkQ "m2" "medium"),
    (6, mkQ "m3" "medium"), (7, mkQ "m4" "medium"), (8, mkQ "h1" "medium+"),
    (9, mkQ "h2" "medium+")]

/-- The quiz generated from `bank12` by the identity draws. -/
def quiz0 : List QuizRow :=
  assignNums (dfShuffle
    (selectAt (dfFilter bank12 "easy") [0, 1, 2, 3] ++
      selectAt (dfFilter bank12 "medium") [0, 1, 2, 3] ++
        selectAt (dfFilter bank12 "medium+") [0, 1, 2, 3]) (List.range 12))

/-- The initial session state obtained from `bank12` by the identity draws. -/
def s0 : SessionState :=
  { quiz := quiz0, show_answer := false, current_question := 0 }

/-- A permutation of 12 positions swapping the first and last row. -/
def permSwap : List Nat :=
  [11, 1, 2, 3, 4, 5, 6, 7, 8, 9, 10, 0]

/-- A two-question session state at position 0 with the answer shown. -/
def sA : SessionState :=
  { quiz := [⟨5, mkQ "x" "easy", 1⟩, ⟨7, mkQ "y" "medium", 2⟩],
    show_answer := true, current_question := 0 }

/-- A two-question session state at position 1 with the answer shown. -/
def sB : SessionState :=
  { quiz := [⟨5, mkQ "x" "easy", 1⟩, ⟨7, mkQ "y" "medium", 2⟩],
    show_answer := true, current_question := 1 }

/-! Claim theorems. -/

/-- C1: evaluation of `generate_quiz` at a repository with ample pools and the
request (easy, medium, hard) = (2, 4, 4): the code returns 12 questions, 4 of
them tagged easy — not the requested total 2 + 4 + 4 = 10 with exactly 2 easy.
The count parameters are ignored because every `.sample` call hardcodes
`n=4`, contradicting the function's own docstring. -/
theorem claim_C1 :
    (generate_quiz bank12 2 4 4 [0, 1, 2, 3] [0, 1, 2, 3] [0, 1, 2, 3]
        (List.range 12)).map
        (fun q => (q.length, q.countP (fun r => r.q.difficulty == "easy"))) =
      some (12, 4) ∧ (12 ≠ 2 + 4 + 4 ∧ 4 ≠ 2) :=
  ⟨by decide, by decide⟩

/-- C2: evaluation of `generate_quiz` at a repository whose hardest-tier pool
has 3 questions, with the request (easy, medium, hard) = (4, 4, 2): every
requested count is within its pool (2 ≤ 3), yet generation fails, because the
code samples the hardcoded `n=4` from the 3-question pool. This refutes
"fails if and only if some tier's pool has fewer questions than the count
requested for that tier". -/
theorem claim_C2 :
    generate_quiz bank11 4 4 2 [0, 1, 2, 3] [0, 1, 2, 3] [0, 1] (List.range 11) =
        none ∧
      (4 ≤ (dfFilter bank11 "easy").length ∧ 4 ≤ (dfFilter bank11 "medium").length ∧
        2 ≤ (dfFilter bank11 "medium+").length) :=
  ⟨rfl, by decide⟩

/-- C3: in every reachable session state the position lies inside
[0, len(selected) - 1]; the Next press at the last index and the Previous
press at index 0 leave the whole state unchanged; and neither press ever
moves the position out of bounds. -/
theorem claim_C3 {df : Frame} {s : SessionState} (h : Reachable df s) :
    (0 ≤ s.current_question ∧ s.current_question < s.quiz.length) ∧
    (s.current_question = s.quiz.length - 1 → nextQuestion s = s) ∧
    (s.current_question = 0 → prevQuestion s = s) ∧
    ((nextQuestion s).current_question < s.quiz.length ∧
      (prevQuestion s).current_question < s.quiz.length) := by
  have hlt := reachable_position_lt h
  refine ⟨⟨Nat.zero_le _, hlt⟩, ?_, ?_, ?_, ?_⟩
  · intro hc
    simp [nextQuestion, hc]
  · intro hc
    simp [prevQuestion, hc]
  · unfold nextQuestion
    split_ifs with hc
    · exact hlt
    · simpa using by omega
  · unfold prevQuestion
    split_ifs with hc
    · exact hlt
    · simpa using by omega

/-- Witness for C3 at the session initialized from `bank12` by the identity
draws. -/
theorem claim_C3_witness :
    (0 ≤ s0.current_question ∧ s0.current_question < s0.quiz.length) ∧
    (s0.current_question = s0.quiz.length - 1 → nextQuestion s0 = s0) ∧
    (s0.current_question = 0 → prevQuestion s0 = s0) ∧
    ((nextQuestion s0).current_question < s0.quiz.length ∧
      (prevQuestion s0).current_question < s0.quiz.length) :=
  claim_C3 (@Reachable.init bank12 [0, 1, 2, 3] [0, 1, 2, 3] [0, 1, 2, 3]
    (List.range 12) s0 (by decide) (by decide) (by decide) (by decide) rfl)

/-- C4: for a valid shuffle draw, the Shuffle Questions handler permutes
exactly the same question members (equal multiset, hence equal set: no
re-sampling from the repository), reassigns question_num to 1..N in the new
order, resets the position to 0, hides the answer, and yields a nonempty quiz
from a nonempty quiz (the operation is total, so it never fails). -/
theorem claim_C4 (s : SessionState) (perm : List Nat)
    (h : ValidPerm s.quiz.length perm) :
    ((shuffleQuestions s perm).quiz.map (fun r => r.q)).Perm
        (s.quiz.map (fun r => r.q)) ∧
    (∀ a, a ∈ (shuffleQuestions s perm).quiz.map (fun r => r.q) ↔
        a ∈ s.quiz.map (fun r => r.q)) ∧
    (shuffleQuestions s perm).quiz.map (fun r => r.question_num) =
        List.range' 1 s.quiz.length ∧
    (shuffleQuestions s perm).current_question = 0 ∧
    (shuffleQuestions s perm).show_answer = false ∧
    (s.quiz ≠ [] → (shuffleQuestions s perm).quiz ≠ []) := by
  have hperm : ((shuffleQuestions s perm).quiz.map (fun r => r.q)).Perm
      (s.quiz.map (fun r => r.q)) := by
    simp only [shuffleQuestions]
    rw [renumberFrom_map_q, resetIndexFrom_map_q]
    exact (dfShuffle_perm h).map _
  refine ⟨hperm, fun a => hperm.mem_iff, ?_, rfl, rfl, ?_⟩
  · simp only [shuffleQuestions]
    rw [renumberFrom_map_num, resetIndexFrom_length, dfShuffle_length h]
  · intro hne hcon
    have hlen := shuffleQuestions_quiz_length h
    rw [hcon] at hlen
    exact hne (List.length_eq_zero.mp hlen.symm)

/-- Witness for C4 at a concrete two-question state, swapping the rows. -/
theorem claim_C4_witness :
    ValidPerm sA.quiz.length [1, 0] ∧
    (((shuffleQuestions sA [1, 0]).quiz.map (fun r => r.q)).Perm
        (sA.quiz.map (fun r => r.q)) ∧
    (∀ a, a ∈ (shuffleQuestions sA [1, 0]).quiz.map (fun r => r.q) ↔
        a ∈ sA.quiz.map (fun r => r.q)) ∧
    (shuffleQuestions sA [1, 0]).quiz.map (fun r => r.question_num) =
        List.range' 1 sA.quiz.length ∧
    (shuffleQuestions sA [1, 0]).current_question = 0 ∧
    (shuffleQuestions sA [1, 0]).show_answer = false ∧
    (sA.quiz ≠ [] → (shuffleQuestions sA [1, 0]).quiz ≠ [])) :=
  ⟨by decide, claim_C4 sA [1, 0] (by decide)⟩

/-- C6: whenever a Next press is enabled (the position is not at the last
index) the handler hides the answer regardless of its prior value; likewise
for an enabled Previous press (position not 0); and the Shuffle Questions
handler always hides the answer. At a boundary the corresponding button is
disabled, so no navigation action occurs there. -/
theorem claim_C6 :
    (∀ s : SessionState, s.current_question ≠ s.quiz.length - 1 →
      (nextQuestion s).show_answer = false) ∧
    (∀ s : SessionState, s.current_question ≠ 0 →
      (prevQuestion s).show_answer = false) ∧
    (∀ (s : SessionState) (perm : List Nat),
      (shuffleQuestions s perm).show_answer = false) := by
  refine ⟨fun s hs => ?_, fun s hs => ?_, fun s perm => rfl⟩
  · simp [nextQuestion, hs]
  · simp [prevQuestion, hs]

/-- Witness for C6 at concrete two-question states with the answer shown. -/
theorem claim_C6_witness :
    (nextQuestion sA).show_answer = false ∧
      (prevQuestion sB).show_answer = false ∧
      (shuffleQuestions sB [1, 0]).show_answer = false :=
  ⟨claim_C6.1 sA (by decide), claim_C6.2.1 sB (by decide), claim_C6.2.2 sB [1, 0]⟩

/-- C7: the Show Answer handler sets show_answer to true and the Hide Answer
handler sets it to false, regardless of the prior value; both are total
(always legal in every session state) and idempotent, and neither changes the
position or the selected quiz. -/
theorem claim_C7 (s : SessionState) :
    (showAnswerBtn s).show_answer = true ∧
    (hideAnswerBtn s).show_answer = false ∧
    showAnswerBtn (showAnswerBtn s) = showAnswerBtn s ∧
    hideAnswerBtn (hideAnswerBtn s) = hideAnswerBtn s ∧
    (showAnswerBtn s).current_question = s.current_question ∧
    (showAnswerBtn s).quiz = s.quiz ∧
    (hideAnswerBtn s).current_question = s.current_question ∧
    (hideAnswerBtn s).quiz = s.quiz :=
  ⟨rfl, rfl, rfl, rfl, rfl, rfl, rfl, rfl⟩

/-- C5: when the three tier sample calls succeed with groups `gE`, `gM`, `gH`
and the shuffle draw is a valid permutation of the combined frame,
`generate_quiz` returns the concatenation `gE ++ gM ++ gH` permuted as one
step, and assigns question_num values that are exactly the integers 1..N
matching the final positions. -/
theorem claim_C5 (df : Frame) (a b c : Nat) (pickE pickM pickH shuf : List Nat)
    (gE gM gH : Frame)
    (hE : dfSampleN (dfFilter df "easy") 4 pickE = some gE)
    (hM : dfSampleN (dfFilter df "medium") 4 pickM = some gM)
    (hH : dfSampleN (dfFilter df "medium+") 4 pickH = some gH)
    (hS : ValidPerm (gE ++ gM ++ gH).length shuf) :
    ∃ q, generate_quiz df a b c pickE pickM pickH shuf = some q ∧
      (q.map (fun r => (r.idx, r.q))).Perm (gE ++ gM ++ gH) ∧
      q.map (fun r => r.question_num) = List.range' 1 q.length := by
  refine ⟨assignNums (dfShuffle (gE ++ gM ++ gH) shuf), ?_, ?_, ?_⟩
  · simp [generate_quiz, hE, hM, hH]
  · rw [assignNums, assignNumsFrom_map_pair]
    exact dfShuffle_perm hS
  · rw [assignNums, assignNumsFrom_map_num, assignNumsFrom_length]

/-- The easy-tier group sampled from `bank12` by the identity draw. -/
def gE0 : Frame := selectAt (dfFilter bank12 "easy") [0, 1, 2, 3]

/-- The medium-tier group sampled from `bank12` by the identity draw. -/
def gM0 : Frame := selectAt (dfFilter bank12 "medium") [0, 1, 2, 3]

/-- The hardest-tier group sampled from `bank12` by the identity draw. -/
def gH0 : Frame := selectAt (dfFilter bank12 "medium+") [0, 1, 2, 3]

/-- Witness for C5 at `bank12` with the identity draws. -/
theorem claim_C5_witness :
    dfSampleN (dfFilter bank12 "easy") 4 [0, 1, 2, 3] = some gE0 ∧
    dfSampleN (dfFilter bank12 "medium") 4 [0, 1, 2, 3] = some gM0 ∧
    dfSampleN (dfFilter bank12 "medium+") 4 [0, 1, 2, 3] = some gH0 ∧
    ValidPerm (gE0 ++ gM0 ++ gH0).length (List.range 12) ∧
    ∃ q, generate_quiz bank12 4 4 4 [0, 1, 2, 3] [0, 1, 2, 3] [0, 1, 2, 3]
        (List.range 12) = some q ∧
      (q.map (fun r => (r.idx, r.q))).Perm (gE0 ++ gM0 ++ gH0) ∧
      q.map (fun r => r.question_num) = List.range' 1 q.length :=
  ⟨rfl, rfl, rfl, by decide,
    claim_C5 bank12 4 4 4 [0, 1, 2, 3] [0, 1, 2, 3] [0, 1, 2, 3] (List.range 12)
      gE0 gM0 gH0 rfl rfl rfl (by decide)⟩

/-- C8: when the hardest-tier pool has fewer than 4 questions, quiz generation
raises, and session initialization creates no state at all: there is no
`quiz`, `show_answer` or `current_question` value (the exception aborts the
initialization block before any assignment to `st.session_state`). -/
theorem claim_C8 (df : Frame) (pickE pickM pickH shuf : List Nat)
    (h : (dfFilter df "medium+").length < 4) :
    generate_quiz df 4 4 4 pickE pickM pickH shuf = none ∧
      initSession df pickE pickM pickH shuf = none := by
  have hg : generate_quiz df 4 4 4 pickE pickM pickH shuf = none :=
    (generate_quiz_eq_none_iff df 4 4 4 pickE pickM pickH shuf).mpr (Or.inr (Or.inr h))
  refine ⟨hg, ?_⟩
  rw [initSession, hg]
  rfl

/-- Witness for C8 at a concrete bank with only two medium+ questions,
matching the spec scenario of a (4, 4, 4) request over a 2-question hard
pool. -/
theorem claim_C8_witness :
    (dfFilter bank10 "medium+").length < 4 ∧
    (generate_quiz bank10 4 4 4 [0, 1, 2, 3] [0, 1, 2, 3] [0, 1] (List.range 12) =
        none ∧
      initSession bank10 [0, 1, 2, 3] [0, 1, 2, 3] [0, 1] (List.range 12) = none) :=
  ⟨by decide, claim_C8 bank10 [0, 1, 2, 3] [0, 1, 2, 3] [0, 1] (List.range 12)
    (by decide)⟩

/-- C9 as stated is false on the code: after a Shuffle Questions press the
pandas index is reset (`reset_index(drop=True)`) to the new positions 0..N-1,
erasing the repository-positional identity. In the session generated from
`bank12` by the identity draws and then shuffled by the swap permutation, the
row now at position 0 holds the question that carried repository index 11
before the shuffle, but carries index 0 after it. -/
theorem claim_C9_cex :
    ¬ (∀ r ∈ (shuffleQuestions s0 permSwap).quiz,
        ∃ r₀ ∈ s0.quiz, r₀.q = r.q ∧ r₀.idx = r.idx) := by
  decide

/-- C9 amended: a Shuffle Questions press preserves each question's record
content (the multiset of question records is unchanged), but the carried
pandas index is reassigned to 0..N-1 in the new order, so the
repository-positional identity is not preserved across shuffles. -/
theorem claim_C9_amended (s : SessionState) (perm : List Nat)
    (h : ValidPerm s.quiz.length perm) :
    ((shuffleQuestions s perm).quiz.map (fun r => r.q)).Perm
        (s.quiz.map (fun r => r.q)) ∧
    (shuffleQuestions s perm).quiz.map (fun r => r.idx) =
      List.range' 0 s.quiz.length := by
  constructor
  · simp only [shuffleQuestions]
    rw [renumberFrom_map_q, resetIndexFrom_map_q]
    exact (dfShuffle_perm h).map _
  · simp only [shuffleQuestions]
    rw [renumberFrom_map_idx, resetIndexFrom_map_idx, dfShuffle_length h]

/-- Witness for the amended C9 at a concrete two-question state. -/
theorem claim_C9_amended_witness :
    ValidPerm sB.quiz.length [1, 0] ∧
    (((shuffleQuestions sB [1, 0]).quiz.map (fun r => r.q)).Perm
        (sB.quiz.map (fun r => r.q)) ∧
      (shuffleQuestions sB [1, 0]).quiz.map (fun r => r.idx) =
        List.range' 0 sB.quiz.length) :=
  ⟨by decide, claim_C9_amended sB [1, 0] (by decide)⟩

/-- C10: `generate_quiz` does not depend on its `num_easy`, `num_medium`,
`num_hard` arguments: with the same random draws, any two requested triples
give equal results; and with valid draws the result always has 12 questions,
4 tagged "easy", 4 tagged "medium" and 4 tagged with the hardest tier label,
which is the string "medium+". -/
theorem claim_C10 (df : Frame) (a₁ b₁ c₁ a₂ b₂ c₂ : Nat)
    (pickE pickM pickH shuf : List Nat)
    (hE : ValidPick (dfFilter df "easy").length 4 pickE)
    (hM : ValidPick (dfFilter df "medium").length 4 pickM)
    (hH : ValidPick (dfFilter df "medium+").length 4 pickH)
    (hS : ValidPerm 12 shuf) :
    generate_quiz df a₁ b₁ c₁ pickE pickM pickH shuf =
      generate_quiz df a₂ b₂ c₂ pickE pickM pickH shuf ∧
    ∃ q, generate_quiz df a₁ b₁ c₁ pickE pickM pickH shuf = some q ∧
      q.length = 12 ∧
      q.countP (fun r => r.q.difficulty == "easy") = 4 ∧
      q.countP (fun r => r.q.difficulty == "medium") = 4 ∧
      q.countP (fun r => r.q.difficulty == "medium+") = 4 := by
  have hcomb := combined_length hE hM hH
  have hS' : ValidPerm (selectAt (dfFilter df "easy") pickE ++
      selectAt (dfFilter df "medium") pickM ++
        selectAt (dfFilter df "medium+") pickH).length shuf := by
    rw [hcomb]
    exact hS
  have hgen := generate_quiz_eq a₁ b₁ c₁ pickE pickM pickH shuf hE.le_len hM.le_len
    hH.le_len
  have key : ∀ d : String,
      (assignNums (dfShuffle (selectAt (dfFilter df "easy") pickE ++
          selectAt (dfFilter df "medium") pickM ++
            selectAt (dfFilter df "medium+") pickH) shuf)).countP
          (fun r => r.q.difficulty == d) =
        (selectAt (dfFilter df "easy") pickE).countP (fun r => r.2.difficulty == d) +
          (selectAt (dfFilter df "medium") pickM).countP
            (fun r => r.2.difficulty == d) +
          (selectAt (dfFilter df "medium+") pickH).countP
            (fun r => r.2.difficulty == d) := by
    intro d
    have h1 : ((assignNums (dfShuffle (selectAt (dfFilter df "easy") pickE ++
        selectAt (dfFilter df "medium") pickM ++
          selectAt (dfFilter df "medium+") pickH) shuf)).map
            (fun r => (r.idx, r.q))).countP (fun r => r.2.difficulty == d) =
        (assignNums (dfShuffle (selectAt (dfFilter df "easy") pickE ++
          selectAt (dfFilter df "medium") pickM ++
            selectAt (dfFilter df "medium+") pickH) shuf)).countP
          (fun r => r.q.difficulty == d) := by
      rw [List.countP_map]
      rfl
    rw [← h1, assignNums, assignNumsFrom_map_pair,
      List.Perm.countP_eq _ (dfShuffle_perm hS'), List.countP_append,
      List.countP_append]
  refine ⟨rfl, _, hgen, ?_, ?_, ?_, ?_⟩
  · rw [assignNums, assignNumsFrom_length, dfShuffle_length hS', hcomb]
  · rw [key "easy", countP_selectAt_filter_self,
      countP_selectAt_filter_ne df "medium" "easy" (by decide) pickM,
      countP_selectAt_filter_ne df "medium+" "easy" (by decide) pickH,
      validPick_selectAt_length hE]
  · rw [key "medium", countP_selectAt_filter_self,
      countP_selectAt_filter_ne df "easy" "medium" (by decide) pickE,
      countP_selectAt_filter_ne df "medium+" "medium" (by decide) pickH,
      validPick_selectAt_length hM]
  · rw [key "medium+", countP_selectAt_filter_self,
      countP_selectAt_filter_ne df "easy" "medium+" (by decide) pickE,
      countP_selectAt_filter_ne df "medium" "medium+" (by decide) pickM,
      validPick_selectAt_length hH]

/-- Witness for C10 at `bank12`, comparing the requests (0, 0, 0) and
(7, 8, 9) under the identity draws. -/
theorem claim_C10_witness :
    ValidPerm 12 (List.range 12) ∧
    (generate_quiz bank12 0 0 0 [0, 1, 2, 3] [0, 1, 2, 3] [0, 1, 2, 3]
        (List.range 12) =
      generate_quiz bank12 7 8 9 [0, 1, 2, 3] [0, 1, 2, 3] [0, 1, 2, 3]
        (List.range 12) ∧
    ∃ q, generate_quiz bank12 0 0 0 [0, 1, 2, 3] [0, 1, 2, 3] [0, 1, 2, 3]
        (List.range 12) = some q ∧
      q.length = 12 ∧
      q.countP (fun r => r.q.difficulty == "easy") = 4 ∧
      q.countP (fun r => r.q.difficulty == "medium") = 4 ∧
      q.countP (fun r => r.q.difficulty == "medium+") = 4) :=
  ⟨by decide, claim_C10 bank12 0 0 0 7 8 9 [0, 1, 2, 3] [0, 1, 2, 3] [0, 1, 2, 3]
    (List.range 12) (by decide) (by decide) (by decide) (by decide)⟩

end Quiz
